import Mathlib

/-!
Shallow embedding of the video-convert service core:
src/services/ffmpeg.ts, src/services/validator.ts,
src/tools/convert.ts and src/tools/batch.ts.

JavaScript numbers that can be NaN are modelled by JsNum (NaN or a
finite rational, carried as an unnormalized integer fraction so that
everything reduces in the kernel); the decimal subset of the JS built-in
string-to-number conversions (Number, parseFloat, parseInt) is modelled
explicitly, since parseFrameRate and the duration-resolution logic
depend on their NaN behaviour.  Filesystem and subprocess effects are
passed in as explicit oracles, so every definition is executable.
-/

/-- An unnormalized fraction of integers.  Every reachable value of the
embedded code has a nonzero denominator (all divisions are guarded by
truthiness or positivity checks in the source). -/
structure Frac where
  n : ℤ
  d : ℤ
deriving DecidableEq

/-- The rational value of a fraction. -/
def Frac.val (f : Frac) : ℚ := (f.n : ℚ) / (f.d : ℚ)

def Frac.ofInt (k : ℤ) : Frac := ⟨k, 1⟩

def Frac.add (a b : Frac) : Frac := ⟨a.n * b.d + b.n * a.d, a.d * b.d⟩

def Frac.mul (a b : Frac) : Frac := ⟨a.n * b.n, a.d * b.d⟩

/-- Fraction division; the zero-divisor case never arises in the
guarded call sites of the embedded code. -/
def Frac.div (a b : Frac) : Frac := ⟨a.n * b.d, a.d * b.n⟩

def Frac.neg (a : Frac) : Frac := ⟨-a.n, a.d⟩

/-- `⌊a + 1/2⌋` (the JS `Math.round` on finite numbers), computed with
integer floor division after making the denominator nonnegative. -/
def Frac.roundHalfUp (a : Frac) : ℤ :=
  let b : Frac := if a.d < 0 then ⟨-a.n, -a.d⟩ else a
  Int.fdiv (2 * b.n + b.d) (2 * b.d)

/-- A JavaScript number restricted to the values reachable in the
modelled code paths: NaN or a finite rational. -/
inductive JsNum where
  | nan : JsNum
  | num : Frac → JsNum
deriving DecidableEq

/-- The rational meaning of a JS number (`none` for NaN). -/
def JsNum.val : JsNum → Option ℚ
  | .nan => none
  | .num f => some f.val

/-- JS truthiness of a number: NaN and 0 are falsy. -/
def jsTruthy : JsNum → Bool
  | .nan => false
  | .num f => f.n != 0

/-- JS `x || d` for an optional number `x` (absent and falsy both give `d`). -/
def jsOr (x : Option JsNum) (d : JsNum) : JsNum :=
  match x with
  | some v => if jsTruthy v then v else d
  | none => d

/-- JS `x || 0` on a number. -/
def jsOrZero (x : JsNum) : JsNum := if jsTruthy x then x else .num (.ofInt 0)

/-- JS division.  Every call site in the embedded code guards the
denominator with a truthiness or positivity check, so the
zero-denominator case is unreachable; it is mapped to NaN. -/
def jsDiv : JsNum → JsNum → JsNum
  | .num a, .num b => if b.n = 0 then .nan else .num (a.div b)
  | _, _ => .nan

/-- JS multiplication, NaN-propagating. -/
def jsMul : JsNum → JsNum → JsNum
  | .num a, .num b => .num (a.mul b)
  | _, _ => .nan

/-- JS `Math.round`: half-up rounding, NaN-preserving. -/
def jsRound : JsNum → JsNum
  | .nan => .nan
  | .num f => .num (.ofInt f.roundHalfUp)

/-- JS `x > 0`; false for NaN. -/
def jsGtZero : JsNum → Bool
  | .nan => false
  | .num f => decide (0 < f.n * f.d)

/-- Numeric value of a digit list, most significant digit first. -/
def digitsToNat (ds : List Char) : Nat :=
  ds.foldl (fun a c => a * 10 + (c.toNat - 48)) 0

/-- Parse a decimal mantissa (digits, optionally a dot and more digits)
from the front of a character list, returning its value and the
unconsumed remainder; fails when no digit is present.  This is the
decimal subset of the JS number grammar (hex and exponent forms do not
occur in the probe fields this service reads). -/
def parseDecPart (cs : List Char) : Option (Frac × List Char) :=
  let ip := cs.takeWhile Char.isDigit
  let r1 := cs.dropWhile Char.isDigit
  match r1 with
  | '.' :: r2 =>
    let fp := r2.takeWhile Char.isDigit
    let r3 := r2.dropWhile Char.isDigit
    if ip.isEmpty && fp.isEmpty then none
    else some (⟨(digitsToNat ip : ℤ) * (10 : ℤ) ^ fp.length + (digitsToNat fp : ℤ),
                (10 : ℤ) ^ fp.length⟩, r3)
  | _ =>
    if ip.isEmpty then none else some (⟨(digitsToNat ip : ℤ), 1⟩, r1)

/-- Strip an optional leading sign, returning (isNegative, rest). -/
def splitSign : List Char → Bool × List Char
  | '-' :: r => (true, r)
  | '+' :: r => (false, r)
  | cs => (false, cs)

/-- The JS `Number(...)` conversion on its decimal subset: whitespace is
trimmed, an empty string means 0, otherwise the whole string must be one
signed decimal literal, else NaN. -/
def jsNumberOf (s : String) : JsNum :=
  let cs := ((s.data.dropWhile Char.isWhitespace).reverse.dropWhile Char.isWhitespace).reverse
  if cs.isEmpty then .num (.ofInt 0)
  else
    let p := splitSign cs
    match parseDecPart p.2 with
    | some (q, []) => .num (if p.1 then q.neg else q)
    | _ => .nan

/-- `Number(...)` lifted to an optional string; `Number(undefined)` is NaN. -/
def jsNumberOfOpt : Option String → JsNum
  | none => .nan
  | some s => jsNumberOf s

/-- The JS `parseFloat(...)` conversion on its decimal subset: parses the
longest signed decimal literal at the front of the string, NaN when no
digit can be consumed. -/
def jsParseFloat (s : String) : JsNum :=
  let cs := s.data.dropWhile Char.isWhitespace
  let p := splitSign cs
  match parseDecPart p.2 with
  | some (q, _) => .num (if p.1 then q.neg else q)
  | none => .nan

/-- The JS `parseInt(...)` conversion on its decimal subset: leading
decimal digits only, NaN when there are none. -/
def jsParseInt (s : String) : JsNum :=
  let cs := s.data.dropWhile Char.isWhitespace
  let p := splitSign cs
  let ds := p.2.takeWhile Char.isDigit
  if ds.isEmpty then .nan
  else .num (if p.1 then Frac.neg ⟨(digitsToNat ds : ℤ), 1⟩ else ⟨(digitsToNat ds : ℤ), 1⟩)

/-- Character membership in a string (JS `includes` for one character).
List-based so that it reduces in the kernel. -/
def strHasChar (s : String) (c : Char) : Bool := s.data.contains c

/-- Split a character list at every occurrence of a separator character. -/
def splitCharAux (c : Char) : List Char → List Char → List (List Char)
  | [], acc => [acc.reverse]
  | x :: xs, acc =>
    if x = c then acc.reverse :: splitCharAux c xs []
    else splitCharAux c xs (x :: acc)

/-- JS `s.split(c)` for a one-character separator. -/
def strSplitChar (s : String) (c : Char) : List String :=
  (splitCharAux c s.data []).map (fun l => ⟨l⟩)

/-- `FFmpegService.parseFrameRate` (ffmpeg.ts lines 454-463): parse an
ffprobe rational frame-rate string. -/
def parseFrameRate (frameRateStr : Option String) : JsNum :=
  match frameRateStr with
  | none => .num (.ofInt 0)
  | some s =>
    if s = "" then .num (.ofInt 0)
    else if strHasChar s '/' then
      let parts := strSplitChar s '/'
      let n := jsNumberOf (parts.getD 0 "")
      let d := jsNumberOfOpt parts[1]?
      if jsTruthy d then jsDiv (jsRound (jsMul (jsDiv n d) (.num (.ofInt 100)))) (.num (.ofInt 100))
      else .num (.ofInt 0)
    else jsOrZero (jsParseFloat s)

/-! ### Validator service (src/services/validator.ts) -/

/-- The characters rejected by the filename checks of `validator.ts`
(the regex character class of lines 233 and 252): path/quoting
characters and ASCII control characters. -/
def winInvalidChar (c : Char) : Bool :=
  c == '<' || c == '>' || c == ':' || c == '"' || c == '/' ||
  c == '\\' || c == '|' || c == '?' || c == '*' || c.toNat ≤ 31

def hasInvalidChar (s : String) : Bool := s.data.any winInvalidChar

/-- The Windows reserved device names of the regex on line 239, in the
order the alternation lists them. -/
def reservedBases : List String :=
  ["CON", "PRN", "AUX", "NUL",
   "COM1", "COM2", "COM3", "COM4", "COM5", "COM6", "COM7", "COM8", "COM9",
   "LPT1", "LPT2", "LPT3", "LPT4", "LPT5", "LPT6", "LPT7", "LPT8", "LPT9"]

def strUpper (s : String) : String := ⟨s.data.map Char.toUpper⟩

def charTake (s : String) (k : Nat) : String := ⟨s.data.take k⟩

def charDrop (s : String) (k : Nat) : String := ⟨s.data.drop k⟩

/-- One alternative of the anchored reserved-name regex
`/^(CON|PRN|AUX|NUL|COM[1-9]|LPT[1-9])(\.|$)/i`: the name starts with
the base (case-insensitively) followed by a dot or the end. -/
def matchesBase (s : String) (r : String) : Bool :=
  strUpper (charTake s r.length) == r &&
  (s.length == r.length || charTake (charDrop s r.length) 1 == ".")

/-- `reservedNames.test(fileName)` of `validator.ts` line 240. -/
def matchesReservedName (s : String) : Bool :=
  (reservedBases.find? (matchesBase s)).isSome

/-- `ValidatorService.isValidFileName` (validator.ts lines 226-245). -/
def isValidFileName (fileName : String) : Bool :=
  if fileName.length = 0 || 255 < fileName.length then false
  else if hasInvalidChar fileName then false
  else if matchesReservedName fileName then false
  else true

/-- JS `s.substring(0, k)` (string truncation). -/
def jsSubstringTo (s : String) (k : Nat) : String := ⟨s.data.take k⟩

/-- `ValidatorService.sanitizeFileName` (validator.ts lines 250-255):
global replacement of disallowed characters by an underscore, then the
anchored reserved-name replacement with `_$2` (the matched base is
replaced by an underscore, the captured dot-or-end is kept), then
truncation to 255 characters. -/
def sanitizeFileName (fileName : String) : String :=
  let g : String := ⟨fileName.data.map (fun c => if winInvalidChar c then '_' else c)⟩
  let h : String :=
    match reservedBases.find? (matchesBase g) with
    | some r => "_" ++ charDrop g r.length
    | none => g
  jsSubstringTo h 255

/-- `ValidatorService.validateBitrate` (validator.ts lines 159-173);
`none` means valid, `some e` carries the error text. -/
def validateBitrate (bitrate : ℤ) (isVideo : Bool) : Option String :=
  if bitrate ≤ 0 then
    some ((if isVideo then "视频" else "音频") ++ "码率必须大于0")
  else
    let maxBitrate : ℤ := if isVideo then 50000 else 320
    if maxBitrate < bitrate then
      some ((if isVideo then "视频" else "音频") ++ "码率过大，最大支持" ++ toString maxBitrate ++ "kbps")
    else none

/-- `ValidatorService.validateFrameRate` (validator.ts lines 178-188). -/
def validateFrameRate (frameRate : ℤ) : Option String :=
  if frameRate ≤ 0 then some "帧率必须大于0"
  else if 120 < frameRate then some "帧率过高，最大支持120fps"
  else none

/-- The regex `^(\d+)x(\d+)$` of `validateResolution`: the string is
exactly one digit run, one `x`, one digit run. -/
def resolutionMatch (s : String) : Option (Nat × Nat) :=
  match strSplitChar s 'x' with
  | [a, b] =>
    if a.data ≠ [] && b.data ≠ [] && a.data.all Char.isDigit && b.data.all Char.isDigit then
      some (digitsToNat a.data, digitsToNat b.data)
    else none
  | _ => none

/-- `ValidatorService.validateResolution` (validator.ts lines 133-154). -/
def validateResolution (resolution : String) : Except String (Nat × Nat) :=
  match resolutionMatch resolution with
  | none => .error "分辨率格式无效，应为 \"宽度x高度\" 格式，如 \"1920x1080\""
  | some (width, height) =>
    if width < 1 || height < 1 then .error "分辨率必须大于0"
    else if 7680 < width || 4320 < height then .error "分辨率过大，最大支持8K (7680x4320)"
    else .ok (width, height)

/-- The keys of `ValidatorService.supportedFormats` (validator.ts
lines 13-21); note `flv` is absent. -/
def supportedOutputFormats : List String :=
  ["mp4", "avi", "mov", "wmv", "mkv", "webm", "m4v"]

/-- `ValidatorService.validateOutputFormat` (validator.ts lines 93-102). -/
def validateOutputFormat (format : String) : Option String :=
  if supportedOutputFormats.contains format then none
  else some ("不支持的输出格式: " ++ format ++ "。支持的格式: " ++
             String.intercalate ", " supportedOutputFormats)

/-- `ValidatorService.validateInputFiles` (validator.ts lines 193-207),
with the per-file check `validateVideoFile` passed in as an oracle
(`none` = valid, `some e` = invalid with reason `e`, the reason being
always present in the source so the `|| '未知错误'` default is dead).
Returns (validFiles, invalidFiles) in input order. -/
def validateInputFiles (validate : String → Option String) :
    List String → List String × List (String × String)
  | [] => ([], [])
  | f :: rest =>
    let r := validateInputFiles validate rest
    match validate f with
    | none => (f :: r.1, r.2)
    | some e => (r.1, (f, e) :: r.2)

/-! ### FFmpeg service (src/services/ffmpeg.ts) -/

/-- The state of a fluent-ffmpeg command as far as the embedded code
drives it: codec selections, the dedicated bitrate/size/fps setters, and
the ordered list of `addOption` directives.  `size` keeps the structured
width/height pair that the source formats into a string. -/
structure FfCommand where
  videoCodecName : Option String := none
  audioCodecName : Option String := none
  videoBitrate : Option ℤ := none
  audioBitrate : Option ℤ := none
  size : Option (Nat × Nat) := none
  fps : Option ℤ := none
  options : List (String × String) := []
deriving DecidableEq

def FfCommand.addOption (c : FfCommand) (k v : String) : FfCommand :=
  { c with options := c.options ++ [(k, v)] }

/-- The conversion options record assembled by the tool handlers and
consumed by `applyConversionOptions` (types/index.ts `ConversionOptions`;
the unused `outputPath` field is omitted). -/
structure ConversionOptions where
  outputFormat : String
  quality : Option String := none
  resolution : Option (Nat × Nat) := none
  videoBitrate : Option ℤ := none
  audioBitrate : Option ℤ := none
  frameRate : Option ℤ := none
  overwrite : Bool := false
deriving DecidableEq

/-- JS truthiness of an optional number-valued field: absent and 0 are
falsy. -/
def intTruthy (o : Option ℤ) : Bool :=
  match o with
  | none => false
  | some k => k != 0

/-- JS truthiness of an optional string-valued field: absent and the
empty string are falsy. -/
def strTruthy (o : Option String) : Bool :=
  match o with
  | none => false
  | some s => s != ""

/-- JS `toLowerCase` on the ASCII range used by the format names. -/
def strLower (s : String) : String := ⟨s.data.map Char.toLower⟩

/-- `FFmpegService.usesCRF` (ffmpeg.ts lines 390-393). -/
def usesCRF (format : String) : Bool :=
  ["mp4", "avi", "mov", "webm", "mkv", "flv", "wmv", "m4v"].contains (strLower format)

/-- `FFmpegService.setCodecsForFormat` (ffmpeg.ts lines 294-385). -/
def setCodecsForFormat (command : FfCommand) (format : String) : FfCommand :=
  match strLower format with
  | "mp4" =>
    let c := { command with videoCodecName := some "libx264", audioCodecName := some "aac" }
    let c := c.addOption "-preset" "medium"
    let c := c.addOption "-crf" "23"
    let c := c.addOption "-movflags" "+faststart+frag_keyframe+empty_moov"
    let c := c.addOption "-f" "mp4"
    let c := c.addOption "-pix_fmt" "yuv420p"
    let c := c.addOption "-profile:v" "high"
    c.addOption "-level" "4.0"
  | "avi" =>
    let c := { command with videoCodecName := some "libx264", audioCodecName := some "aac" }
    let c := c.addOption "-preset" "medium"
    let c := c.addOption "-crf" "23"
    c.addOption "-f" "avi"
  | "mov" =>
    let c := { command with videoCodecName := some "libx264", audioCodecName := some "aac" }
    let c := c.addOption "-preset" "medium"
    let c := c.addOption "-crf" "23"
    let c := c.addOption "-movflags" "+faststart"
    c.addOption "-f" "mov"
  | "webm" =>
    let c := { command with videoCodecName := some "libvpx-vp9", audioCodecName := some "libopus" }
    let c := c.addOption "-crf" "30"
    let c := c.addOption "-b:v" "0"
    let c := c.addOption "-row-mt" "1"
    let c := c.addOption "-f" "webm"
    let c := c.addOption "-deadline" "good"
    c.addOption "-cpu-used" "1"
  | "mkv" =>
    let c := { command with videoCodecName := some "libx264", audioCodecName := some "aac" }
    let c := c.addOption "-preset" "medium"
    let c := c.addOption "-crf" "23"
    c.addOption "-f" "matroska"
  | "flv" =>
    let c := { command with videoCodecName := some "libx264", audioCodecName := some "aac" }
    let c := c.addOption "-preset" "medium"
    let c := c.addOption "-crf" "25"
    c.addOption "-f" "flv"
  | "wmv" =>
    let c := { command with videoCodecName := some "libx264", audioCodecName := some "aac" }
    let c := c.addOption "-preset" "medium"
    let c := c.addOption "-crf" "25"
    let c := c.addOption "-f" "asf"
    let c := c.addOption "-avoid_negative_ts" "make_zero"
    let c := c.addOption "-fflags" "+genpts+igndts"
    let c := c.addOption "-use_wallclock_as_timestamps" "1"
    c.addOption "-metadata" "title=\"\""
  | "m4v" =>
    let c := { command with videoCodecName := some "libx264", audioCodecName := some "aac" }
    let c := c.addOption "-preset" "medium"
    let c := c.addOption "-crf" "23"
    let c := c.addOption "-f" "mp4"
    let c := c.addOption "-movflags" "+faststart+frag_keyframe+empty_moov"
    let c := c.addOption "-brand" "M4V "
    let c := c.addOption "-pix_fmt" "yuv420p"
    let c := c.addOption "-profile:v" "high"
    let c := c.addOption "-level" "4.0"
    c.addOption "-write_tmcd" "0"
  | _ =>
    let c := { command with videoCodecName := some "libx264", audioCodecName := some "aac" }
    let c := c.addOption "-preset" "medium"
    c.addOption "-crf" "23"

/-- One row of `FFmpegService.getQualityPresets` (ffmpeg.ts
lines 430-449). -/
structure QualityPresetEntry where
  videoBitrate : Option ℤ := none
  audioBitrate : Option ℤ := none
deriving DecidableEq

/-- `FFmpegService.getQualityPresets` as the lookup `presets[quality]`
performs it. -/
def getQualityPresets (quality : String) : Option QualityPresetEntry :=
  match quality with
  | "low" => some { videoBitrate := some 1000, audioBitrate := some 96 }
  | "medium" => some { videoBitrate := some 2500, audioBitrate := some 128 }
  | "high" => some { videoBitrate := some 5000, audioBitrate := some 192 }
  | "ultra" => some { videoBitrate := some 8000, audioBitrate := some 320 }
  | _ => none

/-- `FFmpegService.bitrateToQuality` (ffmpeg.ts lines 419-425). -/
def bitrateToQuality (bitrate : ℤ) : ℤ :=
  if 8000 ≤ bitrate then 18
  else if 5000 ≤ bitrate then 21
  else if 2500 ≤ bitrate then 23
  else 25

/-- `FFmpegService.applyQualityPreset` (ffmpeg.ts lines 398-414). -/
def applyQualityPreset (command : FfCommand) (quality : String) : FfCommand :=
  match getQualityPresets quality with
  | none => command
  | some preset =>
    let c :=
      if intTruthy preset.videoBitrate then
        command.addOption "-crf" (toString (bitrateToQuality (preset.videoBitrate.getD 0)))
      else command
    if intTruthy preset.audioBitrate then { c with audioBitrate := preset.audioBitrate }
    else c

/-- `FFmpegService.applyConversionOptions` (ffmpeg.ts lines 252-289). -/
def applyConversionOptions (options : ConversionOptions) : FfCommand :=
  let command := setCodecsForFormat {} options.outputFormat
  let command :=
    if strTruthy options.quality then applyQualityPreset command (options.quality.getD "")
    else command
  let command :=
    match options.resolution with
    | some wh => { command with size := some wh }
    | none => command
  let command :=
    if intTruthy options.videoBitrate && !usesCRF options.outputFormat then
      { command with videoBitrate := options.videoBitrate }
    else command
  let command :=
    if intTruthy options.audioBitrate then { command with audioBitrate := options.audioBitrate }
    else command
  let command :=
    if intTruthy options.frameRate then { command with fps := options.frameRate }
    else command
  let command := command.addOption "-avoid_negative_ts" "make_zero"
  let command := command.addOption "-fflags" "+genpts"
  command.addOption "-max_muxing_queue_size" "1024"

/-! ### Job state machine and output verification (ffmpeg.ts) -/

inductive JobStatus where
  | pending
  | processing
  | completed
  | failed
deriving DecidableEq

/-- `ConversionProgress` (types/index.ts): the mutable job record.
Timestamps are opaque clock readings passed in by the event handlers. -/
structure ConversionProgress where
  taskId : String
  inputPath : String
  outputPath : String
  progress : JsNum
  status : JobStatus
  error : Option String := none
  startTime : Nat
  endTime : Option Nat := none
deriving DecidableEq

/-- `FFmpegService.validateOutputFile` (ffmpeg.ts lines 468-485).
`access` is the outcome of `fs.access` (`some e` = it threw with message
`e`), `size` the stat size, `probe` the outcome of `getVideoInfo`
(`some e` = the probe rejected with message `e`).  Every failure is
wrapped in the `文件验证失败` message of the surrounding catch. -/
def validateOutputFile (access : Option String) (size : Nat) (probe : Option String) :
    Option String :=
  match access with
  | some e => some ("文件验证失败: " ++ e)
  | none =>
    if size = 0 then some ("文件验证失败: " ++ "输出文件为空")
    else
      match probe with
      | some e => some ("文件验证失败: " ++ e)
      | none => none

/-- The `end`-event handler of `FFmpegService.convertVideo` (ffmpeg.ts
lines 161-180): on successful verification the job completes at 100%,
otherwise it fails with the verification message and the promise is
rejected with the distinguishing `转换完成但文件验证失败` message. -/
def onEndEvent (verification : Option String) (now : Nat) (p : ConversionProgress) :
    ConversionProgress × Except String String :=
  match verification with
  | none =>
    ({ p with status := .completed, progress := .num (.ofInt 100), endTime := some now },
     .ok p.outputPath)
  | some m =>
    ({ p with status := .failed, error := some ("输出文件验证失败: " ++ m), endTime := some now },
     .error ("转换完成但文件验证失败: " ++ m))

/-- Substring search on character lists (JS `String.prototype.includes`). -/
def listHasInfix (needle : List Char) : List Char → Bool
  | [] => needle.isEmpty
  | x :: xs => needle.isPrefixOf (x :: xs) || listHasInfix needle xs

/-- JS `s.includes(sub)`. -/
def strIncludes (s sub : String) : Bool := listHasInfix sub.data s.data

/-- The error-message enrichment of the `error`-event handler (ffmpeg.ts
lines 181-204). -/
def enhanceErrorMessage (m : String) : String :=
  let base := "视频转换失败: " ++ m
  if strIncludes m "moov atom not found" then
    base ++ "\n建议: 输入文件可能损坏或格式不完整，请检查源文件"
  else if strIncludes m "Invalid data found" then
    base ++ "\n建议: 输入文件格式可能不受支持或文件已损坏"
  else if strIncludes m "No such file or directory" then
    base ++ "\n建议: 请检查输入文件路径是否正确"
  else if strIncludes m "Permission denied" then
    base ++ "\n建议: 请检查文件权限或确保输出目录可写"
  else if strIncludes m "codec not found" then
    base ++ "\n建议: 缺少必要的编解码器，请检查FFmpeg安装"
  else base

/-- The `error`-event handler of `FFmpegService.convertVideo` (ffmpeg.ts
lines 181-205). -/
def onErrorEvent (m : String) (now : Nat) (p : ConversionProgress) :
    ConversionProgress × Except String String :=
  ({ p with status := .failed, error := some m, endTime := some now },
   .error (enhanceErrorMessage m))

/-- The `progress`-event handler of `FFmpegService.convertVideo`
(ffmpeg.ts lines 157-160): `progress.progress =
Math.round(progressInfo.percent || 0)`; the same record is passed to the
caller-supplied callback. -/
def onProgressEvent (percent : Option JsNum) (p : ConversionProgress) : ConversionProgress :=
  { p with progress := jsRound (jsOr percent (.num (.ofInt 0))) }

/-! ### Duration resolution in getVideoInfo (ffmpeg.ts lines 43-63) -/

/-- The ffprobe stream fields the duration logic reads (other stream
fields of the source feed only the returned `VideoInfo` descriptor and
are irrelevant to every claim about duration). -/
structure ProbeStream where
  codec_type : String
  duration : Option String := none
  nb_frames : Option String := none
  r_frame_rate : Option String := none
deriving DecidableEq

/-- Truthiness of `stream && stream.duration`. -/
def streamDurTruthy : Option ProbeStream → Bool
  | none => false
  | some s => strTruthy s.duration

/-- The duration computation of `FFmpegService.getVideoInfo` (ffmpeg.ts
lines 43-63), after the video/audio streams have been selected:
container duration (`|| 0`), then the video-stream duration if that
field is truthy, otherwise the audio-stream duration if truthy, and if
the result is still falsy the frame-count/frame-rate fallback. -/
def resolveDuration (fmtDuration : Option JsNum) (vstream astream : Option ProbeStream) :
    JsNum :=
  let d0 := jsOr fmtDuration (.num (.ofInt 0))
  let d1 :=
    if !jsTruthy d0 then
      if streamDurTruthy vstream then jsParseFloat ((vstream.bind (fun s => s.duration)).getD "")
      else if streamDurTruthy astream then jsParseFloat ((astream.bind (fun s => s.duration)).getD "")
      else d0
    else d0
  if !jsTruthy d1 then
    match vstream with
    | some v =>
      if strTruthy v.nb_frames && strTruthy v.r_frame_rate then
        let frameCount := jsParseInt (v.nb_frames.getD "")
        let frameRate := parseFrameRate v.r_frame_rate
        if jsGtZero frameCount && jsGtZero frameRate then jsDiv frameCount frameRate else d1
      else d1
    | none => d1
  else d1

/-- `getVideoInfo` duration resolution applied to a probe result: the
video/audio streams are selected by `codec_type`, exactly as
`metadata.streams.find` does on lines 39-40. -/
def durationOfMetadata (fmtDuration : Option JsNum) (streams : List ProbeStream) : JsNum :=
  resolveDuration fmtDuration
    (streams.find? (fun s => s.codec_type == "video"))
    (streams.find? (fun s => s.codec_type == "audio"))

/-- Modelled from the spec (§4.5, claim C5): the duration rule exactly
as the claim words it — try the container-level duration, then the
video-stream duration, then the audio-stream duration, then frame count
divided by frame rate (only when both are present and positive), taking
the first non-zero value. -/
def specDurationRule (fmtDuration : Option JsNum) (streams : List ProbeStream) : JsNum :=
  let vstream := streams.find? (fun s => s.codec_type == "video")
  let astream := streams.find? (fun s => s.codec_type == "audio")
  let containerD := jsOr fmtDuration (.num (.ofInt 0))
  let videoD :=
    match vstream.bind (fun s => s.duration) with
    | some s => jsParseFloat s
    | none => .num (.ofInt 0)
  let audioD :=
    match astream.bind (fun s => s.duration) with
    | some s => jsParseFloat s
    | none => .num (.ofInt 0)
  let frameD :=
    match vstream with
    | some v =>
      let fc := match v.nb_frames with | some s => jsParseInt s | none => .num (.ofInt 0)
      let fr := parseFrameRate v.r_frame_rate
      if jsGtZero fc && jsGtZero fr then jsDiv fc fr else .num (.ofInt 0)
    | none => .num (.ofInt 0)
  (([containerD, videoD, audioD, frameD].find? jsTruthy).getD (.num (.ofInt 0)))

/-! ### Path helpers (node:path as used by the tools; separator '/') -/

/-- `path.join(dir, file)` as the tools use it (two segments). -/
def pathJoin (dir file : String) : String := dir ++ "/" ++ file

/-- `path.basename(p)`: the last path component. -/
def pathBase (p : String) : String := (strSplitChar p '/').getLastD ""

/-- `path.parse(p).name`: the last path component without its final
extension; a leading dot alone does not start an extension. -/
def pathParseName (p : String) : String :=
  let base := pathBase p
  let rcs := base.data.reverse
  match rcs.dropWhile (fun c => c ≠ '.') with
  | '.' :: rest => if rest.isEmpty then base else ⟨rest.reverse⟩
  | _ => base

/-- `path.dirname(p)`: everything before the last separator. -/
def pathDir (p : String) : String :=
  let parts := strSplitChar p '/'
  if parts.length ≤ 1 then "." else String.intercalate "/" (parts.dropLast)

/-! ### Output-path validation (validator.ts lines 107-128) -/

/-- `ValidatorService.validateOutputPath`.  `mkdirOk` is the outcome of
the recursive `fs.mkdir` on the parent directory, `existsAtPath` the
outcome of `validateFileExists` on the output path. -/
def validateOutputPath (mkdirOk : Bool) (existsAtPath : Bool) (outputPath : String)
    (overwrite : Bool) : Option String :=
  if !mkdirOk then some ("无法创建输出目录: " ++ pathDir outputPath)
  else if !overwrite && existsAtPath then some ("输出文件已存在: " ++ outputPath)
  else if !isValidFileName (pathBase outputPath) then
    some ("无效的文件名: " ++ pathBase outputPath)
  else none

/-! ### convert_video handler (src/tools/convert.ts lines 102-158) -/

/-- The caller-supplied arguments of `convert_video`
(types/index.ts `ConvertVideoArgs`). -/
structure ConvertVideoArgs where
  inputPath : String
  outputFormat : String
  outputPath : Option String := none
  quality : Option String := none
  resolution : Option String := none
  videoBitrate : Option ℤ := none
  audioBitrate : Option ℤ := none
  frameRate : Option ℤ := none
  overwrite : Option Bool := none
deriving DecidableEq

/-- The optional-parameter section of `handleConvertVideo`
(convert.ts lines 102-158): each optional parameter is guarded by a JS
truthiness check, validated only inside that guard, and copied into the
`ConversionOptions` record; a validation failure aborts with the
validator's error. -/
def buildConversionOptions (args : ConvertVideoArgs) : Except String ConversionOptions :=
  let o : ConversionOptions :=
    { outputFormat := args.outputFormat, overwrite := args.overwrite.getD false }
  let o := if strTruthy args.quality then { o with quality := args.quality } else o
  Except.bind
    (if strTruthy args.resolution then
      match validateResolution (args.resolution.getD "") with
      | .error e => Except.error e
      | .ok wh => Except.ok { o with resolution := some wh }
    else Except.ok o) fun o =>
  Except.bind
    (if intTruthy args.videoBitrate then
      match validateBitrate (args.videoBitrate.getD 0) true with
      | some e => Except.error e
      | none => Except.ok { o with videoBitrate := args.videoBitrate }
    else Except.ok o) fun o =>
  Except.bind
    (if intTruthy args.audioBitrate then
      match validateBitrate (args.audioBitrate.getD 0) false with
      | some e => Except.error e
      | none => Except.ok { o with audioBitrate := args.audioBitrate }
    else Except.ok o) fun o =>
  (if intTruthy args.frameRate then
    match validateFrameRate (args.frameRate.getD 0) with
    | some e => Except.error e
    | none => Except.ok { o with frameRate := args.frameRate }
  else Except.ok o)

/-! ### batch_convert handler (src/tools/batch.ts) -/

/-- The caller-supplied arguments of `batch_convert`
(types/index.ts `BatchConvertArgs`). -/
structure BatchConvertArgs where
  inputFiles : List String
  outputFormat : String
  outputDir : String
  quality : Option String := none
  overwrite : Option Bool := none
deriving DecidableEq

/-- The effectful collaborators of `handleBatchConvert`, passed as
oracles: `validate` is `validateVideoFile` (`none` = valid),
`fileExists` is `validateFileExists`, `mkdirOk` the outcome of the
`fs.mkdir` inside `validateOutputPath`, and `convert` is
`FFmpegService.convertVideo` on (input, output) (`none` = resolved,
`some e` = rejected with message `e`). -/
structure BatchEnv where
  validate : String → Option String
  fileExists : String → Bool
  mkdirOk : Bool
  convert : String → String → Option String

/-- The synthesized output path of one batch task (batch.ts
lines 118-119): `<outputDir>/<inputBaseName>.<outputFormat>`. -/
def batchOutPath (args : BatchConvertArgs) (f : String) : String :=
  pathJoin args.outputDir (pathParseName f ++ "." ++ args.outputFormat)

def batchValidFiles (env : BatchEnv) (args : BatchConvertArgs) : List String :=
  (validateInputFiles env.validate args.inputFiles).1

def batchInvalidFiles (env : BatchEnv) (args : BatchConvertArgs) : List (String × String) :=
  (validateInputFiles env.validate args.inputFiles).2

/-- The pending conversion tasks (batch.ts lines 110-126). -/
def batchTasks (env : BatchEnv) (args : BatchConvertArgs) : List (String × String) :=
  (batchValidFiles env args).map (fun f => (f, batchOutPath args f))

/-- The overwrite-conflict scan (batch.ts lines 129-135): every
synthesized output path that already exists. -/
def batchConflicts (env : BatchEnv) (args : BatchConvertArgs) : List String :=
  ((batchTasks env args).map Prod.snd).filter env.fileExists

/-- The sequential conversion loop (batch.ts lines 147-180): returns
(succeeded output paths, (input, error) failures, inputs passed to the
engine), all in task order; a failure is recorded and the loop
continues. -/
def runConversions (convert : String → String → Option String) :
    List (String × String) → List String × List (String × String) × List String
  | [] => ([], [], [])
  | t :: rest =>
    let r := runConversions convert rest
    match convert t.1 t.2 with
    | none => (t.2 :: r.1, r.2.1, t.1 :: r.2.2)
    | some e => (r.1, (t.1, e) :: r.2.1, t.1 :: r.2.2)

/-- The outcome of `handleBatchConvert`: either one of the structured
early rejections (with the data the JSON answer carries), or the final
report.  The numeric fields of `report` mirror the `转换报告` record. -/
inductive BatchOutcome where
  | earlyError (error : String) (invalidFiles : List (String × String))
      (conflicts : List String)
  | report (success : Bool) (message : String) (total valid succeeded failed invalid : Nat)
      (results : List String) (errors : List (String × String))
      (invalidFiles : List (String × String))
deriving DecidableEq

/-- The conversion phase and report assembly of `handleBatchConvert`
(batch.ts lines 145-208). -/
def batchRun (env : BatchEnv) (args : BatchConvertArgs) : BatchOutcome × List String :=
  let r := runConversions env.convert (batchTasks env args)
  let results := r.1
  let errors := r.2.1
  let isPartialSuccess := decide (0 < results.length) && decide (0 < errors.length)
  let isCompleteSuccess := decide (0 < results.length) && decide (errors.length = 0)
  (.report (isCompleteSuccess || isPartialSuccess)
    (if isCompleteSuccess then "批量转换全部完成"
     else if isPartialSuccess then "批量转换部分完成"
     else "批量转换失败")
    args.inputFiles.length (batchValidFiles env args).length
    results.length errors.length (batchInvalidFiles env args).length
    results errors (batchInvalidFiles env args),
   r.2.2)

/-- `handleBatchConvert` (batch.ts lines 49-217).  The second component
is the trace of inputs handed to the conversion engine (empty on every
early rejection). -/
def handleBatchConvert (env : BatchEnv) (args : BatchConvertArgs) :
    BatchOutcome × List String :=
  if args.inputFiles.isEmpty then (.earlyError "输入文件列表不能为空" [] [], [])
  else
    match validateOutputFormat args.outputFormat with
    | some e => (.earlyError e [] [], [])
    | none =>
      if (batchValidFiles env args).isEmpty then
        (.earlyError "没有有效的输入文件" (batchInvalidFiles env args) [], [])
      else
        match validateOutputPath env.mkdirOk
            (env.fileExists (pathJoin args.outputDir "test.tmp"))
            (pathJoin args.outputDir "test.tmp") true with
        | some e => (.earlyError ("输出目录验证失败: " ++ e) [] [], [])
        | none =>
          if args.overwrite.getD false then batchRun env args
          else if batchConflicts env args ≠ [] then
            (.earlyError
              ("以下输出文件已存在，请设置overwrite为true或删除这些文件: " ++
               String.intercalate ", " (batchConflicts env args))
              [] (batchConflicts env args), [])
          else batchRun env args

def batchEnvEx : BatchEnv :=
  { validate := fun f => if f == "c.txt" then some "不支持的文件扩展名: .txt" else none
    fileExists := fun _ => false
    mkdirOk := true
    convert := fun inp _ => if inp == "b.mp4" then some "视频转换失败: boom" else none }

def batchArgsEx : BatchConvertArgs :=
  { inputFiles := ["a.mp4", "b.mp4", "c.txt"], outputFormat := "mp4", outputDir := "out",
    overwrite := some false }

/-! ### Concrete inputs used by the claim theorems and witnesses -/

/-- The constant-quality factor a preset yields through
`applyQualityPreset`: the preset's representative video bitrate pushed
through `bitrateToQuality`. -/
def presetQualityFactor (quality : String) : Option ℤ :=
  (getQualityPresets quality).bind fun p => p.videoBitrate.map bitrateToQuality

def progressEx : ConversionProgress :=
  { taskId := "task_1", inputPath := "in.mp4", outputPath := "out.mp4",
    progress := .num (.ofInt 0), status := .processing, startTime := 0 }

def optsCrfEx : ConversionOptions :=
  { outputFormat := "mp4", quality := some "high", resolution := some (1280, 720),
    videoBitrate := some 3000, audioBitrate := some 128, frameRate := some 30 }

def optsPlainEx : ConversionOptions :=
  { outputFormat := "xyz", videoBitrate := some 3000, audioBitrate := some 128,
    frameRate := some 30 }

def batchEnvConf : BatchEnv :=
  { validate := fun _ => none
    fileExists := fun pth => pth == "out/a.mp4"
    mkdirOk := true
    convert := fun _ _ => none }

def batchArgsConf : BatchConvertArgs :=
  { inputFiles := ["a.mp4", "b.mp4"], outputFormat := "mp4", outputDir := "out",
    overwrite := some false }

/-! ### Claim C7: quality presets and derived quality factors -/

/-- C7: each quality preset maps to its representative bitrates
(video 1000/2500/5000/8000 kbps, audio 96/128/192/320 kbps), the
bitrate-to-factor thresholds give 25/23/21/18, so the derived factor is
monotonically non-increasing along low→medium→high→ultra. -/
theorem preset_quality_factor_spec :
    presetQualityFactor "low" = some 25 ∧
    presetQualityFactor "medium" = some 23 ∧
    presetQualityFactor "high" = some 21 ∧
    presetQualityFactor "ultra" = some 18 ∧
    (getQualityPresets "low").bind (fun p => p.videoBitrate) = some 1000 ∧
    (getQualityPresets "medium").bind (fun p => p.videoBitrate) = some 2500 ∧
    (getQualityPresets "high").bind (fun p => p.videoBitrate) = some 5000 ∧
    (getQualityPresets "ultra").bind (fun p => p.videoBitrate) = some 8000 ∧
    (getQualityPresets "low").bind (fun p => p.audioBitrate) = some 96 ∧
    (getQualityPresets "medium").bind (fun p => p.audioBitrate) = some 128 ∧
    (getQualityPresets "high").bind (fun p => p.audioBitrate) = some 192 ∧
    (getQualityPresets "ultra").bind (fun p => p.audioBitrate) = some 320 ∧
    bitrateToQuality 1000 = 25 ∧ bitrateToQuality 2500 = 23 ∧
    bitrateToQuality 5000 = 21 ∧ bitrateToQuality 8000 = 18 ∧
    (18 : ℤ) ≤ 21 ∧ (21 : ℤ) ≤ 23 ∧ (23 : ℤ) ≤ 25 := by
  decide

/-! ### Claim C9: filename validation and sanitization -/

/-- C9: validation rejects reserved device names case-insensitively
(also with an extension, so "CON.mp4" is rejected), empty names,
overlong names and names with control or path/quoting characters; and
sanitizing "CON.mp4" replaces the reserved base itself (yielding
"_.mp4", which no longer contains "CON") with the result truncated to
at most 255 characters. -/
theorem filename_validation_spec :
    isValidFileName "CON.mp4" = false ∧
    isValidFileName "con.mp4" = false ∧
    (∀ f : String, matchesReservedName f = true → isValidFileName f = false) ∧
    isValidFileName "" = false ∧
    (∀ f : String, 255 < f.length → isValidFileName f = false) ∧
    (∀ f : String, hasInvalidChar f = true → isValidFileName f = false) ∧
    sanitizeFileName "CON.mp4" = "_.mp4" ∧
    strIncludes (sanitizeFileName "CON.mp4") "CON" = false ∧
    (∀ f : String, (sanitizeFileName f).length ≤ 255) := by
  refine ⟨by decide, by decide, ?_, by decide, ?_, ?_, by decide, by decide, ?_⟩
  · intro f h
    simp [isValidFileName, h]
  · intro f h
    simp [isValidFileName, h]
  · intro f h
    simp [isValidFileName, h]
  · intro f
    simp only [sanitizeFileName, jsSubstringTo, String.length, List.length_take]
    omega

/-- Witness for the quantified clauses of C9 at concrete inputs. -/
theorem filename_validation_witness :
    isValidFileName "COM3.txt" = false ∧ (sanitizeFileName "CON.mp4").length ≤ 255 := by
  have h := filename_validation_spec
  exact ⟨h.2.2.1 "COM3.txt" (by decide), h.2.2.2.2.2.2.2.2 "CON.mp4"⟩

/-! ### Claim C8: frame-rate parsing -/

theorem jsOrZero_ne_nan (x : JsNum) : jsOrZero x ≠ .nan := by
  cases x with
  | nan => simp [jsOrZero, jsTruthy]
  | num f =>
    simp only [jsOrZero, jsTruthy]
    split <;> simp

/-- C8 counterexample: the string "abc/2" has a non-numeric numerator
and a truthy denominator, so the guarded branch computes
Math.round(NaN / 2 * 100) / 100 = NaN — the parser does return a
non-numeric value, contradicting the claim that every input yields a
finite number. -/
theorem parseFrameRate_nan_counterexample :
    parseFrameRate (some "abc/2") = JsNum.nan ∧
    (parseFrameRate (some "abc/2")).val = none := by
  decide

/-- C8 (amended): missing or empty input yields 0; an input without a
slash always yields a finite number (0 when unparsable); with a slash a
falsy denominator yields 0, and NaN is produced exactly when the
numerator is non-numeric while the denominator is truthy; well-formed
rationals yield the quotient rounded to two decimals. -/
theorem parseFrameRate_amended :
    parseFrameRate none = .num (.ofInt 0) ∧
    parseFrameRate (some "") = .num (.ofInt 0) ∧
    (∀ s : String, strHasChar s '/' = false → parseFrameRate (some s) ≠ .nan) ∧
    (∀ s : String, s ≠ "" → strHasChar s '/' = true →
       jsTruthy (jsNumberOfOpt (strSplitChar s '/')[1]?) = false →
       parseFrameRate (some s) = .num (.ofInt 0)) ∧
    (∀ s : String, parseFrameRate (some s) = .nan →
       strHasChar s '/' = true ∧
       jsNumberOf ((strSplitChar s '/').getD 0 "") = .nan ∧
       jsTruthy (jsNumberOfOpt (strSplitChar s '/')[1]?) = true) ∧
    (parseFrameRate (some "30000/1001")).val = some (2997 / 100) ∧
    (parseFrameRate (some "24")).val = some 24 := by
  refine ⟨by decide, by decide, ?_, ?_, ?_, ?_, ?_⟩
  · intro s hs
    by_cases he : s = ""
    · subst he; simp [parseFrameRate]
    · simp only [parseFrameRate, if_neg he]
      rw [if_neg (by simp [hs])]
      exact jsOrZero_ne_nan _
  · intro s he hs hd
    simp [parseFrameRate, he, hs, hd]
  · intro s h
    by_cases he : s = ""
    · subst he; simp [parseFrameRate] at h
    · by_cases hs : strHasChar s '/'
      · by_cases hd : jsTruthy (jsNumberOfOpt (strSplitChar s '/')[1]?)
        · refine ⟨hs, ?_, hd⟩
          simp only [parseFrameRate, if_neg he, hs, if_true, hd] at h
          generalize hn : jsNumberOf ((strSplitChar s '/').getD 0 "") = n at h
          generalize hdd : jsNumberOfOpt (strSplitChar s '/')[1]? = d at h hd
          cases n with
          | nan => rfl
          | num a =>
            cases d with
            | nan => simp [jsTruthy] at hd
            | num b =>
              exfalso
              simp only [jsTruthy, bne_iff_ne, ne_eq, decide_eq_true_eq] at hd
              simp [jsDiv, hd, jsMul, jsRound, Frac.ofInt] at h
        · exfalso
          simp [parseFrameRate, he, hs, hd] at h
      · exfalso
        simp only [parseFrameRate, if_neg he] at h
        rw [if_neg (by simp [hs])] at h
        exact jsOrZero_ne_nan _ h
  · have h : parseFrameRate (some "30000/1001") = .num ⟨2997, 100⟩ := by decide
    rw [h]
    simp only [JsNum.val, Frac.val]
    norm_num
  · have h : parseFrameRate (some "24") = .num ⟨24, 1⟩ := by decide
    rw [h]
    simp only [JsNum.val, Frac.val]
    norm_num

/-- Witness for the quantified clauses of C8 at concrete inputs. -/
theorem parseFrameRate_amended_witness :
    parseFrameRate (some "24") ≠ .nan ∧ parseFrameRate (some "5/0") = .num (.ofInt 0) := by
  have h := parseFrameRate_amended
  exact ⟨h.2.2.1 "24" (by decide), h.2.2.2.1 "5/0" (by decide) (by decide) (by decide)⟩

/-! ### Claim C6: progress rounding -/

/-- C6 counterexample: a reported percentage of 150 is stored as 150 and
a percentage of -7 as -7 — the progress handler rounds but does not
clamp to 0-100, contradicting the claimed invariant. -/
theorem progress_not_clamped_counterexample :
    (onProgressEvent (some (.num (.ofInt 150))) progressEx).progress = .num (.ofInt 150) ∧
    ¬ ((150 : ℤ) ≤ 100) ∧
    (onProgressEvent (some (.num (.ofInt (-7)))) progressEx).progress = .num (.ofInt (-7)) ∧
    ¬ ((0 : ℤ) ≤ -7) := by
  decide

theorem jsOr_num (x : Option JsNum) (d : Frac) : ∃ g, jsOr x (.num d) = .num g := by
  cases x with
  | none => exact ⟨d, rfl⟩
  | some v =>
    cases v with
    | nan => exact ⟨d, by simp [jsOr, jsTruthy]⟩
    | num f =>
      simp only [jsOr, jsTruthy]
      split
      · exact ⟨f, rfl⟩
      · exact ⟨d, rfl⟩

theorem roundHalfUp_range (f : Frac) (hd : 0 < f.d) (h0 : 0 ≤ f.val) (h1 : f.val ≤ 100) :
    0 ≤ f.roundHalfUp ∧ f.roundHalfUp ≤ 100 := by
  have hdq : (0 : ℚ) < (f.d : ℚ) := by exact_mod_cast hd
  have hn : 0 ≤ f.n := by
    have := (le_div_iff₀ hdq).mp h0
    simpa using (by exact_mod_cast this : (0 : ℤ) * f.d ≤ f.n)
  have hn100 : f.n ≤ 100 * f.d := by
    have := (div_le_iff₀ hdq).mp h1
    exact_mod_cast this
  simp only [Frac.roundHalfUp, if_neg (by omega : ¬ f.d < 0)]
  rw [Int.fdiv_eq_ediv _ (by omega)]
  constructor
  · exact Int.ediv_nonneg (by omega) (by omega)
  · calc (2 * f.n + f.d) / (2 * f.d) ≤ (f.d + 100 * (2 * f.d)) / (2 * f.d) :=
          Int.ediv_le_ediv (by omega) (by omega)
    _ = f.d / (2 * f.d) + 100 := Int.add_mul_ediv_right _ _ (by omega)
    _ = 100 := by rw [Int.ediv_eq_zero_of_lt (by omega) (by omega)]; omega

/-- C6 (amended): every progress event stores Math.round(percent || 0)
in the job record — always an integer, 0 when the percentage is missing,
and still inside 0-100 whenever the reported percentage is inside 0-100;
out-of-range percentages are stored unclamped (see the counterexample). -/
theorem progress_event_rounds (percent : Option JsNum) (p : ConversionProgress) :
    (∃ k : ℤ, (onProgressEvent percent p).progress = .num (.ofInt k)) ∧
    (onProgressEvent none p).progress = .num (.ofInt 0) ∧
    (∀ f : Frac, 0 < f.d → 0 ≤ f.val → f.val ≤ 100 →
       ∃ k : ℤ, (onProgressEvent (some (.num f)) p).progress = .num (.ofInt k) ∧
         0 ≤ k ∧ k ≤ 100) := by
  refine ⟨?_, rfl, ?_⟩
  · obtain ⟨g, hg⟩ := jsOr_num percent (.ofInt 0)
    exact ⟨g.roundHalfUp, by simp [onProgressEvent, hg, jsRound]⟩
  · intro f hd h0 h1
    by_cases hz : f.n = 0
    · refine ⟨0, ?_, le_refl 0, by omega⟩
      simp [onProgressEvent, jsOr, jsTruthy, hz, jsRound]
      decide
    · obtain ⟨hlo, hhi⟩ := roundHalfUp_range f hd h0 h1
      refine ⟨f.roundHalfUp, ?_, hlo, hhi⟩
      simp [onProgressEvent, jsOr, jsTruthy, hz, jsRound]

/-- Witness for C6 (amended) at a concrete in-range percentage. -/
theorem progress_event_rounds_witness :
    ∃ k : ℤ, (onProgressEvent (some (.num ⟨997, 10⟩)) progressEx).progress = .num (.ofInt k) ∧
      0 ≤ k ∧ k ≤ 100 := by
  have h := progress_event_rounds (some (.num ⟨997, 10⟩)) progressEx
  exact h.2.2 ⟨997, 10⟩ (by norm_num) (by norm_num [Frac.val]) (by norm_num [Frac.val])

/-! ### Claim C4: explicit overrides vs the CRF classification -/

theorem setCodecs_videoBitrate (c : FfCommand) (fmt : String) :
    (setCodecsForFormat c fmt).videoBitrate = c.videoBitrate := by
  unfold setCodecsForFormat
  split <;> rfl

theorem setCodecs_audioBitrate (c : FfCommand) (fmt : String) :
    (setCodecsForFormat c fmt).audioBitrate = c.audioBitrate := by
  unfold setCodecsForFormat
  split <;> rfl

theorem setCodecs_size (c : FfCommand) (fmt : String) :
    (setCodecsForFormat c fmt).size = c.size := by
  unfold setCodecsForFormat
  split <;> rfl

theorem setCodecs_fps (c : FfCommand) (fmt : String) :
    (setCodecsForFormat c fmt).fps = c.fps := by
  unfold setCodecsForFormat
  split <;> rfl

theorem applyQP_videoBitrate (c : FfCommand) (q : String) :
    (applyQualityPreset c q).videoBitrate = c.videoBitrate := by
  unfold applyQualityPreset
  split
  · rfl
  · split <;> split <;> rfl

theorem applyQP_size (c : FfCommand) (q : String) :
    (applyQualityPreset c q).size = c.size := by
  unfold applyQualityPreset
  split
  · rfl
  · split <;> split <;> rfl

theorem applyQP_fps (c : FfCommand) (q : String) :
    (applyQualityPreset c q).fps = c.fps := by
  unfold applyQualityPreset
  split
  · rfl
  · split <;> split <;> rfl

/-- C4: for a quality-factor-driven (CRF) target format an explicit
video-bitrate override is never applied to the engine invocation; for a
format not so classified a (truthy) override is applied directly; and
truthy audio-bitrate, resolution and frame-rate overrides are always
applied, whatever the format classification. -/
theorem explicit_overrides_vs_crf (options : ConversionOptions) :
    (usesCRF options.outputFormat = true →
       (applyConversionOptions options).videoBitrate = none) ∧
    (usesCRF options.outputFormat = false → intTruthy options.videoBitrate = true →
       (applyConversionOptions options).videoBitrate = options.videoBitrate) ∧
    (intTruthy options.audioBitrate = true →
       (applyConversionOptions options).audioBitrate = options.audioBitrate) ∧
    (∀ wh : Nat × Nat, options.resolution = some wh →
       (applyConversionOptions options).size = some wh) ∧
    (intTruthy options.frameRate = true →
       (applyConversionOptions options).fps = options.frameRate) := by
  refine ⟨?_, ?_, ?_, ?_, ?_⟩
  · intro h
    simp only [applyConversionOptions, FfCommand.addOption, h, Bool.not_true, Bool.and_false,
      Bool.false_eq_true, if_false]
    split <;> split <;> split <;> split <;>
      (first | rfl | simp [setCodecs_videoBitrate, applyQP_videoBitrate])
  · intro h ht
    simp only [applyConversionOptions, FfCommand.addOption, h, ht, Bool.not_false, Bool.and_true,
      if_true]
    split <;> split <;> rfl
  · intro h
    simp only [applyConversionOptions, FfCommand.addOption, h, if_true]
    split <;> rfl
  · intro wh h
    simp only [applyConversionOptions, FfCommand.addOption, h]
    split <;> split <;> split <;> rfl
  · intro h
    simp [applyConversionOptions, FfCommand.addOption, h]

/-- Witness for C4 at concrete option records: an mp4 (CRF) conversion
drops the explicit video bitrate while a non-CRF format keeps it, and
the audio/resolution/frame-rate overrides land in the command. -/
theorem explicit_overrides_vs_crf_witness :
    (applyConversionOptions optsCrfEx).videoBitrate = none ∧
    (applyConversionOptions optsPlainEx).videoBitrate = some 3000 ∧
    (applyConversionOptions optsCrfEx).audioBitrate = some 128 ∧
    (applyConversionOptions optsCrfEx).size = some (1280, 720) ∧
    (applyConversionOptions optsCrfEx).fps = some 30 := by
  have h1 := explicit_overrides_vs_crf optsCrfEx
  have h2 := explicit_overrides_vs_crf optsPlainEx
  exact ⟨h1.1 (by decide), h2.2.1 (by decide) (by decide), h1.2.2.1 (by decide),
    h1.2.2.2.1 (1280, 720) rfl, h1.2.2.2.2 (by decide)⟩

/-! ### Claim C2: output verification converts success into failure -/

theorem string_append_data (a b : String) : (a ++ b).data = a.data ++ b.data := rfl

theorem head_of_append (a b : String) (c : Char) (h : a.data.head? = some c) :
    (a ++ b).data.head? = some c := by
  rw [string_append_data]
  cases a with
  | mk l =>
    cases l with
    | nil => simp at h
    | cons x xs => simpa using h

theorem enhance_head (m : String) : (enhanceErrorMessage m).data.head? = some '视' := by
  unfold enhanceErrorMessage
  have hb : ∀ suffix : String,
      (("视频转换失败: " ++ m) ++ suffix).data.head? = some '视' := fun suffix =>
    head_of_append _ suffix _ (head_of_append _ m _ (by decide))
  split
  · exact hb _
  · split
    · exact hb _
    · split
      · exact hb _
      · split
        · exact hb _
        · split
          · exact hb _
          · exact head_of_append _ m _ (by decide)

/-- C2: whenever the engine end event is followed by a failing output
verification (missing file, zero size, or unparsable output), the job's
terminal state is `failed` and not `completed`; the promise is rejected
with the `转换完成但文件验证失败` message, which differs from every message
the outright-failure (error event) path can produce. -/
theorem verification_failure_fails_job :
    (∀ (m : String) (now : Nat) (p : ConversionProgress),
       (onEndEvent (some m) now p).1.status = JobStatus.failed ∧
       (onEndEvent (some m) now p).1.status ≠ JobStatus.completed ∧
       (onEndEvent (some m) now p).2 = Except.error ("转换完成但文件验证失败: " ++ m)) ∧
    (∀ (e : String) (size : Nat) (probe : Option String),
       validateOutputFile (some e) size probe ≠ none) ∧
    (∀ probe : Option String, validateOutputFile none 0 probe ≠ none) ∧
    (∀ (size : Nat) (e : String), size ≠ 0 →
       validateOutputFile none size (some e) = some ("文件验证失败: " ++ e)) ∧
    (∀ m m2 : String, "转换完成但文件验证失败: " ++ m ≠ enhanceErrorMessage m2) ∧
    (∀ (now : Nat) (p : ConversionProgress),
       (onEndEvent (validateOutputFile none 0 none) now p).1.status = JobStatus.failed) := by
  refine ⟨?_, ?_, ?_, ?_, ?_, ?_⟩
  · intro m now p
    exact ⟨rfl, by simp [onEndEvent], rfl⟩
  · intro e size probe
    simp [validateOutputFile]
  · intro probe
    simp [validateOutputFile]
  · intro size e h
    simp [validateOutputFile, h]
  · intro m m2 h
    have h1 : ("转换完成但文件验证失败: " ++ m).data.head? = some '转' :=
      head_of_append _ m _ (by decide)
    rw [h, enhance_head] at h1
    simp at h1
  · intro now p
    rfl

/-- Witness for C2 at a concrete verification failure. -/
theorem verification_failure_fails_job_witness :
    (onEndEvent (some "x") 7 progressEx).1.status = JobStatus.failed ∧
    validateOutputFile none 1 (some "获取视频信息失败: parse") =
      some ("文件验证失败: " ++ "获取视频信息失败: parse") ∧
    ("转换完成但文件验证失败: " ++ "x") ≠ enhanceErrorMessage "x" := by
  have h := verification_failure_fails_job
  exact ⟨(h.1 "x" 7 progressEx).1, h.2.2.2.1 1 "获取视频信息失败: parse" (by decide),
    h.2.2.2.2.1 "x" "x"⟩

/-! ### Claim C10: zero-valued numeric parameters skip validation -/

theorem validateResolution_ne_videoErr (r : String) :
    validateResolution r ≠ .error "视频码率必须大于0" := by
  unfold validateResolution
  split
  · intro hh
    exact absurd (Except.error.inj hh) (by decide)
  · split
    · intro hh
      exact absurd (Except.error.inj hh) (by decide)
    · split
      · intro hh
        exact absurd (Except.error.inj hh) (by decide)
      · intro hh
        exact Except.noConfusion hh

theorem validateBitrate_audio_ne_videoErr (b : ℤ) :
    validateBitrate b false ≠ some "视频码率必须大于0" := by
  simp only [validateBitrate, Bool.false_eq_true, if_false]
  by_cases h1 : b ≤ 0
  · simp only [h1, if_true]
    decide
  · simp only [h1, if_false]
    by_cases h2 : (320 : ℤ) < b
    · simp only [h2, if_true]
      decide
    · simp only [h2, if_false]
      simp

theorem validateFrameRate_ne_videoErr (b : ℤ) :
    validateFrameRate b ≠ some "视频码率必须大于0" := by
  simp only [validateFrameRate]
  by_cases h1 : b ≤ 0
  · simp only [h1, if_true]
    decide
  · simp only [h1, if_false]
    by_cases h2 : (120 : ℤ) < b
    · simp only [h2, if_true]
      decide
    · simp only [h2, if_false]
      simp

theorem bind_error_src {α β : Type} (x : Except String α) (f : α → Except String β) (e : String)
    (h : Except.bind x f = .error e) :
    x = .error e ∨ ∃ a, x = .ok a ∧ f a = .error e := by
  cases x with
  | error e2 =>
    left
    simpa [Except.bind] using h
  | ok a =>
    right
    exact ⟨a, rfl, h⟩

/-- The video-positivity rejection can only arise from the guarded
video-bitrate validation, which requires a truthy parameter. -/
theorem video_positivity_error_needs_truthy (args : ConvertVideoArgs)
    (h : buildConversionOptions args = .error "视频码率必须大于0") :
    intTruthy args.videoBitrate = true := by
  by_contra hv
  simp only [Bool.not_eq_true] at hv
  simp only [buildConversionOptions, hv, Bool.false_eq_true, if_false, Except.bind] at h
  rcases bind_error_src _ _ _ h with h1 | ⟨o1, ho1, h2⟩
  · split at h1
    · split at h1
      · rename_i e heq
        rw [Except.error.inj h1] at heq
        exact validateResolution_ne_videoErr _ heq
      · exact Except.noConfusion h1
    · exact Except.noConfusion h1
  · rcases bind_error_src _ _ _ h2 with h3 | ⟨o2, ho2, h4⟩
    · split at h3
      · split at h3
        · rename_i e heq
          rw [Except.error.inj h3] at heq
          exact validateBitrate_audio_ne_videoErr _ heq
        · exact Except.noConfusion h3
      · exact Except.noConfusion h3
    · split at h4
      · split at h4
        · rename_i e heq
          rw [Except.error.inj h4] at heq
          exact validateFrameRate_ne_videoErr _ heq
        · exact Except.noConfusion h4
      · exact Except.noConfusion h4

/-- C10: a zero videoBitrate, audioBitrate or frameRate is falsy, so the
handler skips the corresponding validation and treats the request
exactly as if the parameter were absent (in particular it is never
rejected with the validator's positivity error, which requires a truthy
parameter), and the absent field yields no engine directive — even
though the validator itself rejects every non-positive bitrate and
frame rate. -/
theorem zero_numeric_params_skip_validation :
    (∀ args : ConvertVideoArgs,
       buildConversionOptions { args with videoBitrate := some 0 } =
         buildConversionOptions { args with videoBitrate := none } ∧
       buildConversionOptions { args with audioBitrate := some 0 } =
         buildConversionOptions { args with audioBitrate := none } ∧
       buildConversionOptions { args with frameRate := some 0 } =
         buildConversionOptions { args with frameRate := none }) ∧
    (∀ args : ConvertVideoArgs, args.videoBitrate = some 0 →
       buildConversionOptions args ≠ .error "视频码率必须大于0") ∧
    (∀ b : ℤ, b ≤ 0 →
       validateBitrate b true = some "视频码率必须大于0" ∧
       validateBitrate b false = some "音频码率必须大于0") ∧
    validateFrameRate 0 = some "帧率必须大于0" ∧
    (∀ o : ConversionOptions, o.videoBitrate = none →
       (applyConversionOptions o).videoBitrate = none) ∧
    (∀ o : ConversionOptions, o.frameRate = none →
       (applyConversionOptions o).fps = none) ∧
    (∀ o : ConversionOptions, o.audioBitrate = none → o.quality = none →
       (applyConversionOptions o).audioBitrate = none) := by
  refine ⟨?_, ?_, ?_, by decide, ?_, ?_, ?_⟩
  · intro args
    refine ⟨?_, ?_, ?_⟩ <;> simp [buildConversionOptions, intTruthy]
  · intro args hz h
    have := video_positivity_error_needs_truthy args h
    rw [hz] at this
    simp [intTruthy] at this
  · intro b hb
    constructor <;> simp [validateBitrate, hb]
  · intro o h
    simp only [applyConversionOptions, FfCommand.addOption, h, intTruthy, Bool.false_and,
      Bool.false_eq_true, if_false]
    split <;> split <;> split <;> split <;>
      (first | rfl | simp [setCodecs_videoBitrate, applyQP_videoBitrate])
  · intro o h
    simp [applyConversionOptions, FfCommand.addOption, h, intTruthy]
    split <;> split <;> split <;> split <;>
      (first | rfl | simp [setCodecs_fps, applyQP_fps])
  · intro o ha hq
    simp only [applyConversionOptions, FfCommand.addOption, ha, hq, strTruthy, intTruthy,
      Bool.false_eq_true, if_false]
    split <;> split <;> split <;>
      (first | rfl | simp [setCodecs_audioBitrate])

/-- Witness for C10 at a concrete request carrying zero numeric
parameters. -/
theorem zero_numeric_params_witness :
    buildConversionOptions
        { inputPath := "a.avi", outputFormat := "mp4", videoBitrate := some 0 } =
      buildConversionOptions { inputPath := "a.avi", outputFormat := "mp4" } ∧
    buildConversionOptions
        { inputPath := "a.avi", outputFormat := "mp4", videoBitrate := some 0 } ≠
      .error "视频码率必须大于0" ∧
    validateBitrate 0 true = some "视频码率必须大于0" := by
  have h1 := (zero_numeric_params_skip_validation.1
    { inputPath := "a.avi", outputFormat := "mp4" }).1
  have h2 := zero_numeric_params_skip_validation.2.1
    { inputPath := "a.avi", outputFormat := "mp4", videoBitrate := some 0 } rfl
  have h3 := (zero_numeric_params_skip_validation.2.2.1 0 (by omega)).1
  exact ⟨h1, h2, h3⟩

/-! ### Claim C5: duration resolution order -/

/-- C5 counterexample: with no container duration, a video stream whose
duration field is the string "0" and an audio stream with duration "5",
the code returns 0 whereas the claimed strict first-non-zero order
(container → video → audio → frames) returns 5: a present-but-zero
video-stream duration suppresses the audio fallback. -/
theorem duration_order_counterexample :
    durationOfMetadata none
      [{ codec_type := "video", duration := some "0" },
       { codec_type := "audio", duration := some "5" }] = .num (.ofInt 0) ∧
    specDurationRule none
      [{ codec_type := "video", duration := some "0" },
       { codec_type := "audio", duration := some "5" }] = .num ⟨5, 1⟩ ∧
    (JsNum.num (Frac.ofInt 0)).val = some 0 ∧
    (JsNum.num ⟨5, 1⟩).val = some 5 := by
  refine ⟨by decide, by decide, ?_, ?_⟩ <;> simp [JsNum.val, Frac.val, Frac.ofInt]

/-- C5 (amended): the duration fallback order is container duration,
then video-stream duration, then audio-stream duration, then frame
count over frame rate — but the audio-stream duration is consulted only
when the video stream is absent or carries no (truthy) duration field;
whenever the video stream has a truthy duration string the audio stream
is never consulted, even if that string parses to zero.  The 300-frame
30-fps example still resolves to 10 seconds. -/
theorem duration_resolution_amended :
    (∀ (q : JsNum) (v a : Option ProbeStream), jsTruthy q = true →
       resolveDuration (some q) v a = q) ∧
    (∀ (fd : Option JsNum) (v a : Option ProbeStream),
       jsTruthy (jsOr fd (.num (.ofInt 0))) = false →
       streamDurTruthy v = true →
       jsTruthy (jsParseFloat ((v.bind (fun s => s.duration)).getD "")) = true →
       resolveDuration fd v a = jsParseFloat ((v.bind (fun s => s.duration)).getD "")) ∧
    (∀ (fd : Option JsNum) (v a a2 : Option ProbeStream), streamDurTruthy v = true →
       resolveDuration fd v a = resolveDuration fd v a2) ∧
    (∀ (fd : Option JsNum) (v a : Option ProbeStream),
       jsTruthy (jsOr fd (.num (.ofInt 0))) = false →
       streamDurTruthy v = false →
       streamDurTruthy a = true →
       jsTruthy (jsParseFloat ((a.bind (fun s => s.duration)).getD "")) = true →
       resolveDuration fd v a = jsParseFloat ((a.bind (fun s => s.duration)).getD "")) ∧
    (∀ (fd : Option JsNum) (vv : ProbeStream) (a : Option ProbeStream),
       jsTruthy (jsOr fd (.num (.ofInt 0))) = false →
       streamDurTruthy (some vv) = false →
       streamDurTruthy a = false →
       strTruthy vv.nb_frames = true →
       strTruthy vv.r_frame_rate = true →
       jsGtZero (jsParseInt (vv.nb_frames.getD "")) = true →
       jsGtZero (parseFrameRate vv.r_frame_rate) = true →
       resolveDuration fd (some vv) a =
         jsDiv (jsParseInt (vv.nb_frames.getD "")) (parseFrameRate vv.r_frame_rate)) ∧
    (durationOfMetadata none
       [{ codec_type := "video", nb_frames := some "300", r_frame_rate := some "30" }] =
       .num ⟨300, 30⟩ ∧
     (JsNum.num (⟨300, 30⟩ : Frac)).val = some 10) := by
  refine ⟨?_, ?_, ?_, ?_, ?_, by decide, ?_⟩
  · intro q v a hq
    have h0 : jsOr (some q) (.num (.ofInt 0)) = q := by simp [jsOr, hq]
    simp [resolveDuration, h0, hq]
  · intro fd v a h0 hv hp
    simp [resolveDuration, h0, hv, hp]
  · intro fd v a a2 hv
    simp [resolveDuration, hv]
  · intro fd v a h0 hv ha hp
    simp [resolveDuration, h0, hv, ha, hp]
  · intro fd vv a h0 hv ha hn hr hc hf
    simp only [resolveDuration, h0, Bool.not_false, if_true, hv, ha, Bool.false_eq_true,
      if_false, hn, hr, Bool.and_self, if_true, hc, hf]
  · simp [JsNum.val, Frac.val]
    norm_num

/-- Witness for the quantified clauses of C5 (amended) at concrete
probe data. -/
theorem duration_resolution_amended_witness :
    resolveDuration (some (.num ⟨7, 1⟩)) none none = .num ⟨7, 1⟩ ∧
    resolveDuration none (some { codec_type := "video", duration := some "0" })
        (some { codec_type := "audio", duration := some "5" }) =
      resolveDuration none (some { codec_type := "video", duration := some "0" }) none := by
  have h := duration_resolution_amended
  exact ⟨h.1 (.num ⟨7, 1⟩) none none (by decide),
    h.2.2.1 none (some { codec_type := "video", duration := some "0" })
      (some { codec_type := "audio", duration := some "5" }) none (by decide)⟩

/-! ### Claims C3 and C1: batch orchestration -/

theorem runConversions_length (c : String → String → Option String)
    (ts : List (String × String)) :
    (runConversions c ts).1.length + (runConversions c ts).2.1.length = ts.length := by
  induction ts with
  | nil => rfl
  | cons t rest ih =>
    simp only [runConversions]
    cases c t.1 t.2 <;> simp only [List.length_cons] <;> omega

theorem runConversions_trace (c : String → String → Option String)
    (ts : List (String × String)) :
    (runConversions c ts).2.2 = ts.map Prod.fst := by
  induction ts with
  | nil => rfl
  | cons t rest ih =>
    simp only [runConversions]
    cases c t.1 t.2 <;> simp [ih]

theorem runConversions_errors (c : String → String → Option String)
    (ts : List (String × String)) :
    (runConversions c ts).2.1 =
      ts.filterMap (fun t => (c t.1 t.2).map (fun e => (t.1, e))) := by
  induction ts with
  | nil => rfl
  | cons t rest ih =>
    simp only [runConversions, List.filterMap_cons]
    cases h : c t.1 t.2 <;> simp [h, ih]

theorem validateInputFiles_length (v : String → Option String) (files : List String) :
    (validateInputFiles v files).1.length + (validateInputFiles v files).2.length =
      files.length := by
  induction files with
  | nil => rfl
  | cons f rest ih =>
    simp only [validateInputFiles]
    cases v f <;> simp only [List.length_cons] <;> omega

/-- C3: when overwrite is false and at least one synthesized output path
already exists, `batch_convert` aborts the whole batch before any engine
invocation (the conversion trace is empty) and the early error carries
the complete conflict list — every synthesized output path that exists
on disk. -/
theorem batch_conflict_aborts_all (env : BatchEnv) (args : BatchConvertArgs)
    (h1 : args.inputFiles.isEmpty = false)
    (h2 : validateOutputFormat args.outputFormat = none)
    (h3 : (batchValidFiles env args).isEmpty = false)
    (h4 : validateOutputPath env.mkdirOk
            (env.fileExists (pathJoin args.outputDir "test.tmp"))
            (pathJoin args.outputDir "test.tmp") true = none)
    (h5 : args.overwrite.getD false = false)
    (h6 : batchConflicts env args ≠ []) :
    handleBatchConvert env args =
      (BatchOutcome.earlyError
        ("以下输出文件已存在，请设置overwrite为true或删除这些文件: " ++
         String.intercalate ", " (batchConflicts env args))
        [] (batchConflicts env args), []) ∧
    batchConflicts env args =
      ((batchTasks env args).map Prod.snd).filter env.fileExists := by
  refine ⟨?_, rfl⟩
  simp [handleBatchConvert, h1, h2, h3, h4, h5, h6]

/-- Witness for C3: a concrete batch where one of two synthesized
outputs exists is rejected with that conflict and an empty conversion
trace. -/
theorem batch_conflict_aborts_all_witness :
    handleBatchConvert batchEnvConf batchArgsConf =
      (BatchOutcome.earlyError
        ("以下输出文件已存在，请设置overwrite为true或删除这些文件: " ++
         String.intercalate ", " (batchConflicts batchEnvConf batchArgsConf))
        [] (batchConflicts batchEnvConf batchArgsConf), []) ∧
    batchConflicts batchEnvConf batchArgsConf =
      ((batchTasks batchEnvConf batchArgsConf).map Prod.snd).filter
        batchEnvConf.fileExists := by
  exact batch_conflict_aborts_all batchEnvConf batchArgsConf (by decide) (by decide)
    (by decide) (by decide) (by decide) (by decide)

theorem batchRun_spec (env : BatchEnv) (args : BatchConvertArgs)
    (success : Bool) (message : String) (total valid succN failN invN : Nat)
    (results : List String) (errors : List (String × String))
    (invalidFiles : List (String × String)) (trace : List String)
    (h : batchRun env args =
      (BatchOutcome.report success message total valid succN failN invN
        results errors invalidFiles, trace)) :
    results.length + errors.length + invalidFiles.length = args.inputFiles.length ∧
    succN = results.length ∧ failN = errors.length ∧ invN = invalidFiles.length ∧
    total = args.inputFiles.length ∧
    (success = true ↔ 0 < results.length) ∧
    errors = (batchTasks env args).filterMap
      (fun t => (env.convert t.1 t.2).map (fun e => (t.1, e))) ∧
    trace = batchValidFiles env args := by
  simp only [batchRun] at h
  rw [Prod.mk.injEq] at h
  obtain ⟨h1, htrace⟩ := h
  rw [BatchOutcome.report.injEq] at h1
  obtain ⟨hs, hm, ht, hv, hsn, hfn, hin, hres, herr, hinv⟩ := h1
  subst hs ht hv hsn hfn hin hres herr hinv htrace
  have hA := runConversions_length env.convert (batchTasks env args)
  have hB := validateInputFiles_length env.validate args.inputFiles
  have hT : (batchTasks env args).length = (batchValidFiles env args).length := by
    simp [batchTasks]
  refine ⟨?_, rfl, rfl, rfl, rfl, ?_, ?_, ?_⟩
  · simp only [batchInvalidFiles, batchValidFiles] at *
    omega
  · simp only [Bool.or_eq_true, Bool.and_eq_true, decide_eq_true_eq]
    omega
  · exact runConversions_errors env.convert (batchTasks env args)
  · rw [runConversions_trace]
    simp only [batchTasks, List.map_map]
    have hcomp : (Prod.fst ∘ fun f => (f, batchOutPath args f)) = id := rfl
    rw [hcomp, List.map_id]

/-- C1: whenever `batch_convert` produces a report, the report
partitions the original inputs exactly (succeeded + failed + invalid =
total requested), its counters match its lists, the success flag is true
if and only if at least one file succeeded, every failure entry is the
(input, engine error) pair of exactly the valid tasks whose conversion
failed, and the engine was invoked on every valid file — one job's
failure never stops the later jobs. -/
theorem batch_report_partition (env : BatchEnv) (args : BatchConvertArgs)
    (success : Bool) (message : String) (total valid succN failN invN : Nat)
    (results : List String) (errors : List (String × String))
    (invalidFiles : List (String × String)) (trace : List String)
    (h : handleBatchConvert env args =
      (BatchOutcome.report success message total valid succN failN invN
        results errors invalidFiles, trace)) :
    results.length + errors.length + invalidFiles.length = args.inputFiles.length ∧
    succN = results.length ∧ failN = errors.length ∧ invN = invalidFiles.length ∧
    total = args.inputFiles.length ∧
    (success = true ↔ 0 < results.length) ∧
    errors = (batchTasks env args).filterMap
      (fun t => (env.convert t.1 t.2).map (fun e => (t.1, e))) ∧
    trace = batchValidFiles env args := by
  unfold handleBatchConvert at h
  split at h
  · simp at h
  · split at h
    · simp at h
    · split at h
      · simp at h
      · split at h
        · simp at h
        · split at h
          · exact batchRun_spec env args _ _ _ _ _ _ _ _ _ _ _ h
          · split at h
            · simp at h
            · exact batchRun_spec env args _ _ _ _ _ _ _ _ _ _ _ h

/-- Witness for C1: the spec's three-input scenario (one invalid file,
one conversion failure, one success) instantiated concretely — the
partition is 1 + 1 + 1 = 3 and the batch reports partial success. -/
theorem batch_report_partition_witness :
    (["out/a.mp4"].length + [("b.mp4", "视频转换失败: boom")].length +
       [("c.txt", "不支持的文件扩展名: .txt")].length = batchArgsEx.inputFiles.length) ∧
    (1 = (["out/a.mp4"] : List String).length) ∧
    (1 = ([("b.mp4", "视频转换失败: boom")] : List (String × String)).length) ∧
    (1 = ([("c.txt", "不支持的文件扩展名: .txt")] : List (String × String)).length) ∧
    (3 = batchArgsEx.inputFiles.length) ∧
    ((true : Bool) = true ↔ 0 < (["out/a.mp4"] : List String).length) ∧
    ([("b.mp4", "视频转换失败: boom")] =
      (batchTasks batchEnvEx batchArgsEx).filterMap
        (fun t => (batchEnvEx.convert t.1 t.2).map (fun e => (t.1, e)))) ∧
    (["a.mp4", "b.mp4"] = batchValidFiles batchEnvEx batchArgsEx) := by
  exact batch_report_partition batchEnvEx batchArgsEx true "批量转换部分完成" 3 2 1 1 1
    ["out/a.mp4"] [("b.mp4", "视频转换失败: boom")] [("c.txt", "不支持的文件扩展名: .txt")]
    ["a.mp4", "b.mp4"] (by decide)
